import Mathlib

/-!
Verification of the `admin_finder.py` scanner.

Python strings are modelled as lists of code points (`List Char`), matching
Python's `str` indexing/length/slicing semantics.  `str.lower()` is modelled
per-character with `Char.toLower` (ASCII lowering); every keyword the program
compares against is either ASCII-lowercase or CJK, both fixed points of
lowering, so the ASCII model is adequate for all comparisons the code makes.
-/

namespace AdminFinder

/-- Python substring membership `needle in hay` on code-point lists. -/
def containsSub : List Char → List Char → Bool
  | [], needle => needle.isEmpty
  | h :: t, needle => needle.isPrefixOf (h :: t) || containsSub t needle

/-- Helper for `strFind`: first index `≥ i` at which `needle` occurs in the
remaining haystack, `-1` when it never occurs (Python `str.find` semantics). -/
def strFindAux (needle : List Char) : List Char → Int → Int
  | [], i => if needle.isEmpty then i else -1
  | h :: t, i => if needle.isPrefixOf (h :: t) then i else strFindAux needle t (i + 1)

/-- Python `hay.find(needle)`: index of the first occurrence, `-1` if absent. -/
def strFind (hay needle : List Char) : Int := strFindAux needle hay 0

/-- Python slice `s[a:b]` for the in-range, nonnegative case.  The code's only
slice is guarded by `7 < a` and `a < b`, so Python's negative-index semantics
never applies where this is used. -/
def pySliceInt (s : List Char) (a b : Int) : List Char := (s.take b.toNat).drop a.toNat

/-- Python `s.lower()`, per-character ASCII lowering. -/
def lowerChars (s : List Char) : List Char := s.map Char.toLower

/-- Python whitespace stripped by `str.strip()` (ASCII subset). -/
def pyWhitespace (c : Char) : Bool :=
  c == ' ' || c == '\t' || c == '\n' || c == '\r' || c == Char.ofNat 11 || c == Char.ofNat 12

/-- Python `s.strip()`. -/
def pyStrip (s : List Char) : List Char :=
  ((s.dropWhile pyWhitespace).reverse.dropWhile pyWhitespace).reverse

/-- `login_keywords` from `_analyze_response` (line 100). -/
def login_keywords : List (List Char) :=
  ["login".toList, "admin".toList, "dashboard".toList, "sign in".toList,
   "authentication".toList, "auth".toList, "password".toList]

/-- `admin_keywords` from `_analyze_response` (line 110). -/
def admin_keywords : List (List Char) :=
  ["admin".toList, "管理".toList, "后台".toList, "dashboard".toList, "control panel".toList]

/-- The literal `<title>` searched for at line 106. -/
def ltOpen : List Char := "<title>".toList

/-- The literal `</title>` searched for at line 107. -/
def ltClose : List Char := "</title>".toList

/-- `_analyze_response` (lines 87-115): status gate, body-keyword loop, then the
title check guarded by the index arithmetic `title_start > 7 and
title_end > title_start` where `title_start = content.find('<title>') + 7`. -/
def analyzeResponse (status : Nat) (text : List Char) : Bool :=
  if status = 200 ∨ status = 401 ∨ status = 403 then
    let content := lowerChars text
    if login_keywords.any (fun k => containsSub content k) then
      true
    else
      let title_start : Int := strFind content ltOpen + 7
      let title_end : Int := strFind content ltClose
      if title_start > 7 ∧ title_end > title_start then
        let title := lowerChars (pySliceInt content title_start title_end)
        admin_keywords.any (fun k => containsSub title k)
      else
        false
  else
    false

/-- The status gate of `_analyze_response` (line 97) in isolation. -/
def statusEligible (status : Nat) : Bool :=
  if status = 200 ∨ status = 401 ∨ status = 403 then true else false

/-- The body-keyword branch of `_analyze_response` (lines 100-103) in isolation. -/
def bodyHit (text : List Char) : Bool :=
  login_keywords.any (fun k => containsSub (lowerChars text) k)

/-- The title branch of `_analyze_response` (lines 106-113) in isolation,
including its index guards. -/
def titleHit (text : List Char) : Bool :=
  let content := lowerChars text
  let title_start : Int := strFind content ltOpen + 7
  let title_end : Int := strFind content ltClose
  if title_start > 7 ∧ title_end > title_start then
    let title := lowerChars (pySliceInt content title_start title_end)
    admin_keywords.any (fun k => containsSub title k)
  else
    false

/-- The text the title branch tests: the slice of the lower-cased body between
`find('<title>') + 7` and `find('</title>')`, lower-cased again (line 109). -/
def titleText (text : List Char) : List Char :=
  lowerChars (pySliceInt (lowerChars text)
    (strFind (lowerChars text) ltOpen + 7) (strFind (lowerChars text) ltClose))

/-- Claim C1's description of the classification heuristic, stated from the
spec's words: eligible status, and either a body keyword occurs in the
lower-cased body, or the title substring exists under the index guards and
contains a title keyword. -/
def specPositive (status : Nat) (text : List Char) : Prop :=
  (status = 200 ∨ status = 401 ∨ status = 403) ∧
    ((∃ k ∈ login_keywords, containsSub (lowerChars text) k = true) ∨
      (strFind (lowerChars text) ltOpen + 7 > 7 ∧
        strFind (lowerChars text) ltClose > strFind (lowerChars text) ltOpen + 7 ∧
        ∃ k ∈ admin_keywords, containsSub (titleText text) k = true))

/-- An HTTP response as the worker sees it: status code and body text
(`response.status_code`, `response.text`).  Elapsed wall-clock time is not
modelled; it never influences control flow or classification. -/
structure HttpResponse where
  status : Nat
  text : List Char
deriving DecidableEq

/-- The result record appended at line 66 for a positive classification.
`content_length = len(response.text)` (code-point count). -/
structure ProbeResult where
  url : List Char
  status_code : Nat
  content_length : Nat
  is_potential_admin : Bool
deriving DecidableEq

/-- Observable per-path actions of `_worker` (lines 45-85), keyed by the
candidate path: the HTTP GET itself, the found-page print/log (line 74-75),
the verbose per-probe line (line 78), the verbose error print (line 82) and
the warning log on a transport error (line 83). -/
inductive ScanEvent where
  | probe : List Char → ScanEvent
  | foundLine : List Char → Nat → ScanEvent
  | checkLine : List Char → Nat → ScanEvent
  | errLine : List Char → ScanEvent
  | warnLog : List Char → ScanEvent
deriving DecidableEq

/-- True for the two outputs emitted only under the verbose flag. -/
def isVerboseOnly : ScanEvent → Bool
  | ScanEvent.checkLine _ _ => true
  | ScanEvent.errLine _ => true
  | _ => false

/-- True for the HTTP GET event. -/
def isProbe : ScanEvent → Bool
  | ScanEvent.probe _ => true
  | _ => false

/-- Number of HTTP GETs in an event trace. -/
def countProbes (evs : List ScanEvent) : Nat := (evs.filter isProbe).length

/-- One iteration of the `_worker` loop body (lines 52-85) for one path.
`net` is the network oracle: `none` models `requests.exceptions.RequestException`
(connection/timeout/DNS failure), `some r` a delivered response.  `joinUrl`
abstracts `urllib.parse.urljoin`; nothing here depends on its definition.
Returns the emitted events in program order and the result record appended
(if any). -/
def runWorker (verbose : Bool) (net : List Char → Option HttpResponse)
    (joinUrl : List Char → List Char → List Char) (base path : List Char) :
    List ScanEvent × Option ProbeResult :=
  match net path with
  | some r =>
      let pos := analyzeResponse r.status r.text
      (ScanEvent.probe path ::
        ((if pos then [ScanEvent.foundLine path r.status] else []) ++
          (if verbose then [ScanEvent.checkLine path r.status] else [])),
       if pos then some ⟨joinUrl base path, r.status, r.text.length, true⟩ else none)
  | none =>
      (ScanEvent.probe path ::
        ((if verbose then [ScanEvent.errLine path] else []) ++ [ScanEvent.warnLog path]),
       none)

/-- The whole scan over the queued paths: each queued path is processed by
exactly one `_worker` iteration (the queue hands every item to exactly one
worker; `join()` waits for all of them).  The sequential order stands in for
an arbitrary interleaving: no claim here depends on cross-path ordering. -/
def runScan (verbose : Bool) (net : List Char → Option HttpResponse)
    (joinUrl : List Char → List Char → List Char) (base : List Char) :
    List (List Char) → List ScanEvent × List ProbeResult
  | [] => ([], [])
  | p :: ps =>
      let w := runWorker verbose net joinUrl base p
      let rest := runScan verbose net joinUrl base ps
      (w.1 ++ rest.1,
       match w.2 with
       | some r => r :: rest.2
       | none => rest.2)

/-- `COMMON_ADMIN_PATHS` (lines 17-22). -/
def COMMON_ADMIN_PATHS : List (List Char) :=
  ["admin".toList, "login".toList, "wp-admin".toList, "dashboard".toList,
   "manage".toList, "backend".toList, "admin.php".toList, "login.php".toList,
   "admin/login".toList, "admin/index".toList, "cms".toList, "system".toList,
   "webadmin".toList, "administrator".toList, "control".toList, "admincp".toList,
   "manage.php".toList, "admin_area".toList, "admin_login".toList,
   "auth/login".toList, "admin_panel".toList]

/-- The path list `main` feeds the queue (lines 173-183): the default list when
no `-f` file is given, otherwise `[line.strip() for line in f if line.strip()]`
over the file's lines. -/
def candidatePaths : Option (List (List Char)) → List (List Char)
  | none => COMMON_ADMIN_PATHS
  | some lines => (lines.map pyStrip).filter (fun l => !l.isEmpty)

/-- `args.url.startswith(('http://', 'https://'))` (line 165). -/
def urlSchemeOk (url : List Char) : Bool :=
  "http://".toList.isPrefixOf url || "https://".toList.isPrefixOf url

/-- Outcome of `main` (lines 153-194): the two fatal configuration errors
(error message printed, `return` before any request), or a completed scan
with its event trace and results. -/
inductive MainOutcome where
  | urlError : MainOutcome
  | fileError : MainOutcome
  | finished : List ScanEvent → List ProbeResult → MainOutcome
deriving DecidableEq

/-- `main` (lines 153-194).  `fileArg` models the `-f` option: `none` = flag
absent, `some none` = file named but unreadable (the `open` raises), and
`some (some lines)` = the file's raw lines (with their newlines). -/
def mainModel (url : List Char) (fileArg : Option (Option (List (List Char))))
    (verbose : Bool) (net : List Char → Option HttpResponse)
    (joinUrl : List Char → List Char → List Char) : MainOutcome :=
  if !urlSchemeOk url then
    MainOutcome.urlError
  else
    match fileArg with
    | some none => MainOutcome.fileError
    | some (some lines) =>
        let r := runScan verbose net joinUrl url (candidatePaths (some lines))
        MainOutcome.finished r.1 r.2
    | none =>
        let r := runScan verbose net joinUrl url (candidatePaths none)
        MainOutcome.finished r.1 r.2

/-- HTTP GETs issued by a `main` run; a configuration error issues none. -/
def probesIssued : MainOutcome → Nat
  | MainOutcome.finished evs _ => countProbes evs
  | _ => 0

/-- Counters of a `queue.Queue`: `qsize()` is puts minus gets. -/
structure QueueState where
  puts : Nat
  gets : Nat
deriving DecidableEq

/-- `Queue.qsize()`. -/
def qsize (q : QueueState) : Nat := q.puts - q.gets

/-- A queue operation: `put` or (successful) `get`. -/
inductive QueueOp where
  | put : QueueOp
  | get : QueueOp
deriving DecidableEq

/-- Effect of one queue operation on the counters. -/
def stepQueue (q : QueueState) : QueueOp → QueueState
  | QueueOp.put => ⟨q.puts + 1, q.gets⟩
  | QueueOp.get => ⟨q.puts, q.gets + 1⟩

/-- Queue traffic of one `run()` (lines 126-148) with `nPaths` queued paths and
`threads` workers: the paths are put and each is got by exactly one worker
(`join()` at line 140 waits until every path's `task_done` ran); then one
`None` sentinel per worker is put (line 143-144) and each worker gets exactly
one sentinel and breaks; `t.join()` (line 146) waits for that.  Line 148 then
reads `qsize()`. -/
def queueOpsOfRun (nPaths threads : Nat) : List QueueOp :=
  List.replicate nPaths QueueOp.put ++ List.replicate nPaths QueueOp.get ++
    List.replicate threads QueueOp.put ++ List.replicate threads QueueOp.get

/-- The path count printed by the summary at line 148:
`self.path_queue.qsize()` evaluated after the queue traffic of the run. -/
def summaryPathCount (nPaths threads : Nat) : Nat :=
  qsize ((queueOpsOfRun nPaths threads).foldl stepQueue ⟨0, 0⟩)


/-- `l₁.isPrefixOf l₂` holds exactly when `l₂` extends `l₁`. -/
theorem isPrefixOf_eq_true_iff (l₁ l₂ : List Char) :
    l₁.isPrefixOf l₂ = true ↔ ∃ r, l₂ = l₁ ++ r := by
  induction l₁ generalizing l₂ with
  | nil => simp [List.isPrefixOf]
  | cons a as ih =>
    cases l₂ with
    | nil => simp [List.isPrefixOf]
    | cons b bs =>
      simp only [List.isPrefixOf, Bool.and_eq_true, beq_iff_eq, ih, List.cons_append,
        List.cons.injEq]
      constructor
      · rintro ⟨h1, r, h2⟩
        exact ⟨r, h1.symm, h2⟩
      · rintro ⟨r, h1, h2⟩
        exact ⟨h1.symm, r, h2⟩

/-- `containsSub` is occurrence of `needle` as a contiguous segment. -/
theorem containsSub_eq_true_iff (hay needle : List Char) :
    containsSub hay needle = true ↔ ∃ l r, hay = l ++ needle ++ r := by
  induction hay with
  | nil =>
    simp only [containsSub, List.isEmpty_iff]
    constructor
    · rintro rfl
      exact ⟨[], [], rfl⟩
    · rintro ⟨l, r, h⟩
      rcases List.append_eq_nil.mp (List.append_eq_nil.mp h.symm).1 with ⟨-, h2⟩
      exact h2
  | cons a t ih =>
    simp only [containsSub, Bool.or_eq_true, isPrefixOf_eq_true_iff, ih]
    constructor
    · rintro (⟨r, h⟩ | ⟨l, r, h⟩)
      · exact ⟨[], r, by simpa using h⟩
      · exact ⟨a :: l, r, by simp [h]⟩
    · rintro ⟨l, r, h⟩
      cases l with
      | nil =>
        exact Or.inl ⟨r, by simpa using h⟩
      | cons x l2 =>
        simp only [List.cons_append, List.cons.injEq] at h
        exact Or.inr ⟨l2, r, h.2⟩

/-- Substring occurrence is transitive. -/
theorem containsSub_trans {a b c : List Char} (h1 : containsSub a b = true)
    (h2 : containsSub b c = true) : containsSub a c = true := by
  rw [containsSub_eq_true_iff] at h1 h2 ⊢
  obtain ⟨l1, r1, rfl⟩ := h1
  obtain ⟨l2, r2, rfl⟩ := h2
  exact ⟨l1 ++ l2, r2 ++ r1, by simp⟩

/-- Substring occurrence is preserved by mapping a character function. -/
theorem containsSub_map (f : Char → Char) {hay needle : List Char}
    (h : containsSub hay needle = true) :
    containsSub (hay.map f) (needle.map f) = true := by
  rw [containsSub_eq_true_iff] at h ⊢
  obtain ⟨l, r, rfl⟩ := h
  exact ⟨l.map f, r.map f, by simp⟩

/-- When the needle never occurs, `strFindAux` answers `-1` from any start. -/
theorem strFindAux_eq_neg_one {needle hay : List Char}
    (h : containsSub hay needle = false) : ∀ i, strFindAux needle hay i = -1 := by
  induction hay with
  | nil =>
    intro i
    simp only [containsSub] at h
    simp [strFindAux, h]
  | cons a t ih =>
    intro i
    simp only [containsSub, Bool.or_eq_false_iff] at h
    simp only [strFindAux, h.1, Bool.false_eq_true, if_false]
    exact ih h.2 (i + 1)

/-- Python `find` answers `-1` exactly on a missing needle. -/
theorem strFind_eq_neg_one {hay needle : List Char}
    (h : containsSub hay needle = false) : strFind hay needle = -1 :=
  strFindAux_eq_neg_one h 0

/-- `_analyze_response` decomposed: positive iff the status is eligible and the
body branch or the title branch fires. -/
theorem analyzeResponse_iff (s : Nat) (t : List Char) :
    analyzeResponse s t = true ↔
      ((s = 200 ∨ s = 401 ∨ s = 403) ∧ (bodyHit t = true ∨ titleHit t = true)) := by
  by_cases hs : s = 200 ∨ s = 401 ∨ s = 403
  · by_cases hb : login_keywords.any (fun k => containsSub (lowerChars t) k) = true
    · simp [analyzeResponse, bodyHit, hs, hb]
    · rw [Bool.not_eq_true] at hb
      simp [analyzeResponse, bodyHit, titleHit, hs, hb]
  · simp [analyzeResponse, bodyHit, hs]

/-- The body branch fires iff some body keyword occurs in the lowered body. -/
theorem bodyHit_eq_true_iff (t : List Char) :
    bodyHit t = true ↔ ∃ k ∈ login_keywords, containsSub (lowerChars t) k = true := by
  simp [bodyHit, List.any_eq_true]

/-- The title branch fires iff the index guards pass and some title keyword
occurs in the extracted title. -/
theorem titleHit_eq_true_iff (t : List Char) :
    titleHit t = true ↔
      (strFind (lowerChars t) ltOpen + 7 > 7 ∧
        strFind (lowerChars t) ltClose > strFind (lowerChars t) ltOpen + 7 ∧
        ∃ k ∈ admin_keywords, containsSub (titleText t) k = true) := by
  by_cases hg : strFind (lowerChars t) ltOpen + 7 > 7 ∧
      strFind (lowerChars t) ltClose > strFind (lowerChars t) ltOpen + 7
  · simp [titleHit, titleText, hg, hg.1, hg.2, List.any_eq_true]
  · simp only [titleHit, hg, if_false]
    constructor
    · rintro h
      cases h
    · rintro ⟨h1, h2, -⟩
      exact absurd ⟨h1, h2⟩ hg

/-- Every worker iteration issues exactly one HTTP GET. -/
theorem countProbes_runWorker (v : Bool) (net : List Char → Option HttpResponse)
    (j : List Char → List Char → List Char) (b p : List Char) :
    countProbes (runWorker v net j b p).1 = 1 := by
  cases h : net p with
  | some r =>
    cases hp : analyzeResponse r.status r.text <;> cases v <;>
      simp [runWorker, countProbes, h, hp, isProbe, List.filter_append, List.filter]
  | none =>
    cases v <;> simp [runWorker, countProbes, h, isProbe, List.filter_append, List.filter]

/-- The scan issues exactly one HTTP GET per queued path. -/
theorem countProbes_runScan (v : Bool) (net : List Char → Option HttpResponse)
    (j : List Char → List Char → List Char) (b : List Char) (paths : List (List Char)) :
    countProbes (runScan v net j b paths).1 = paths.length := by
  induction paths with
  | nil => rfl
  | cons p ps ih =>
    have : countProbes ((runWorker v net j b p).1 ++ (runScan v net j b ps).1) =
        countProbes (runWorker v net j b p).1 + countProbes (runScan v net j b ps).1 := by
      simp [countProbes, List.filter_append]
    simp only [runScan]
    rw [this, countProbes_runWorker, ih, List.length_cons]
    omega

/-- Folding `k` puts adds `k` to the put counter. -/
theorem foldl_stepQueue_put (k : Nat) (q : QueueState) :
    (List.replicate k QueueOp.put).foldl stepQueue q = ⟨q.puts + k, q.gets⟩ := by
  induction k generalizing q with
  | zero => simp
  | succ n ih =>
    rw [List.replicate_succ, List.foldl_cons, ih]
    simp [stepQueue]
    omega

/-- Folding `k` gets adds `k` to the get counter. -/
theorem foldl_stepQueue_get (k : Nat) (q : QueueState) :
    (List.replicate k QueueOp.get).foldl stepQueue q = ⟨q.puts, q.gets + k⟩ := by
  induction k generalizing q with
  | zero => simp
  | succ n ih =>
    rw [List.replicate_succ, List.foldl_cons, ih]
    simp [stepQueue]
    omega

/-- The worker's appended result does not depend on the verbose flag. -/
theorem runWorker_result_verbose (net : List Char → Option HttpResponse)
    (j : List Char → List Char → List Char) (b p : List Char) :
    (runWorker true net j b p).2 = (runWorker false net j b p).2 := by
  cases h : net p <;> simp [runWorker, h]

/-- Dropping the verbose-only lines from a verbose worker's events yields the
non-verbose worker's events. -/
theorem runWorker_events_verbose (net : List Char → Option HttpResponse)
    (j : List Char → List Char → List Char) (b p : List Char) :
    (runWorker true net j b p).1.filter (fun e => !isVerboseOnly e) =
      (runWorker false net j b p).1 := by
  cases h : net p with
  | some r =>
    cases hp : analyzeResponse r.status r.text <;>
      simp [runWorker, h, hp, isVerboseOnly, List.filter_append, List.filter]
  | none =>
    simp [runWorker, h, isVerboseOnly, List.filter_append, List.filter]

/-- C1: the classification heuristic returns positive for a response if and
only if its status code is one of 200, 401, 403 and either (a) the lower-cased
body contains one of the seven body keywords, or (b) the substring between the
first `<title>` and the first `</title>` of the lower-cased body exists under
the index guards `title_start > 7` and `title_end > title_start` and contains
one of the five title keywords; every other response is negative, and no other
signal is considered. -/
theorem c1_classification_iff (s : Nat) (t : List Char) :
    analyzeResponse s t = true ↔ specPositive s t := by
  rw [analyzeResponse_iff, bodyHit_eq_true_iff, titleHit_eq_true_iff]
  exact Iff.rfl

/-- C2: the number of HTTP GETs issued equals the number of candidate paths
supplied — the default list's size with no path file, or the number of
non-empty lines after stripping when a file is given; in particular a file
with 3 valid paths and 2 blank lines yields exactly 3 probes. -/
theorem c2_probe_count :
    (∀ (v : Bool) (net : List Char → Option HttpResponse)
        (j : List Char → List Char → List Char) (b : List Char)
        (fileArg : Option (List (List Char))),
        countProbes (runScan v net j b (candidatePaths fileArg)).1 =
          (candidatePaths fileArg).length) ∧
      (candidatePaths none).length = COMMON_ADMIN_PATHS.length ∧
      countProbes (runScan false (fun _ => none) (fun _ p => p) []
          (candidatePaths (some ["admin\n".toList, "\n".toList, "login\n".toList,
            "   \n".toList, "panel".toList]))).1 = 3 := by
  refine ⟨fun v net j b fileArg => countProbes_runScan v net j b (candidatePaths fileArg),
    rfl, ?_⟩
  decide

/-- C3: both configuration errors are fatal and precede any network request —
a URL without an `http://`/`https://` scheme aborts with the URL error, and an
unreadable path file (with a valid URL) aborts with the file error; in both
cases zero probes are issued. -/
theorem c3_config_errors (url : List Char) (fileArg : Option (Option (List (List Char))))
    (v : Bool) (net : List Char → Option HttpResponse)
    (j : List Char → List Char → List Char) :
    (urlSchemeOk url = false →
      mainModel url fileArg v net j = MainOutcome.urlError ∧
        probesIssued (mainModel url fileArg v net j) = 0) ∧
    (urlSchemeOk url = true → fileArg = some none →
      mainModel url fileArg v net j = MainOutcome.fileError ∧
        probesIssued (mainModel url fileArg v net j) = 0) := by
  constructor
  · intro h
    simp [mainModel, h, probesIssued]
  · intro h hf
    subst hf
    simp [mainModel, h, probesIssued]

/-- Witness for C3 at the spec's own examples: `ftp://example.com` and
`example.com` abort with the URL error, and a good URL with an unreadable
file aborts with the file error. -/
theorem c3_config_errors_witness :
    mainModel "ftp://example.com".toList none false (fun _ => none) (fun _ p => p) =
        MainOutcome.urlError ∧
      mainModel "example.com".toList none false (fun _ => none) (fun _ p => p) =
        MainOutcome.urlError ∧
      mainModel "http://example.com".toList (some none) false (fun _ => none)
          (fun _ p => p) = MainOutcome.fileError :=
  ⟨((c3_config_errors "ftp://example.com".toList none false (fun _ => none)
      (fun _ p => p)).1 (by decide)).1,
    ((c3_config_errors "example.com".toList none false (fun _ => none)
      (fun _ p => p)).1 (by decide)).1,
    ((c3_config_errors "http://example.com".toList (some none) false (fun _ => none)
      (fun _ p => p)).2 (by decide) rfl).1⟩

/-- Any body containing `<title>Dashboard</title>` contains the body keyword
`dashboard` after lowering, so the body branch fires. -/
theorem bodyHit_of_title_dashboard {t : List Char}
    (hc : containsSub t "<title>Dashboard</title>".toList = true) :
    bodyHit t = true := by
  have h1 : containsSub (lowerChars t) (lowerChars "<title>Dashboard</title>".toList) = true :=
    containsSub_map Char.toLower hc
  have h2 : lowerChars "<title>Dashboard</title>".toList =
      "<title>dashboard</title>".toList := by decide
  have h3 : containsSub "<title>dashboard</title>".toList "dashboard".toList = true := by
    decide
  have h4 : containsSub (lowerChars t) "dashboard".toList = true :=
    containsSub_trans (h2 ▸ h1) h3
  rw [bodyHit_eq_true_iff]
  exact ⟨"dashboard".toList, by decide, h4⟩

/-- C4 counterexample: the claim's scenario is unsatisfiable — no body can
contain `<title>Dashboard</title>` while containing no listed body keyword,
because `dashboard` is itself a body keyword and occurs inside the title tag. -/
theorem c4_counterexample :
    ¬ ∃ t : List Char, containsSub t "<title>Dashboard</title>".toList = true ∧
        bodyHit t = false := by
  rintro ⟨t, hc, hb⟩
  rw [bodyHit_of_title_dashboard hc] at hb
  cases hb

/-- C4 amended: a response with an eligible status whose body contains
`<title>Dashboard</title>` classifies positive, but via the body-keyword
branch — `dashboard` is itself a body keyword, so the premise "contains no
listed body keyword" can never hold together with that title. -/
theorem c4_title_dashboard (s : Nat) (t : List Char)
    (hs : s = 200 ∨ s = 401 ∨ s = 403)
    (hc : containsSub t "<title>Dashboard</title>".toList = true) :
    analyzeResponse s t = true ∧ bodyHit t = true := by
  have hb := bodyHit_of_title_dashboard hc
  exact ⟨(analyzeResponse_iff s t).mpr ⟨hs, Or.inl hb⟩, hb⟩

/-- Witness for C4 (amended) at status 200 and the literal body
`<title>Dashboard</title>`. -/
theorem c4_title_dashboard_witness :
    ((200 : Nat) = 200 ∨ (200 : Nat) = 401 ∨ (200 : Nat) = 403) ∧
      containsSub "<title>Dashboard</title>".toList
        "<title>Dashboard</title>".toList = true ∧
      analyzeResponse 200 "<title>Dashboard</title>".toList = true :=
  ⟨Or.inl rfl, by decide,
    (c4_title_dashboard 200 "<title>Dashboard</title>".toList (Or.inl rfl) (by decide)).1⟩

/-- C5 counterexample: for the body `abc`, which does not contain `<title>`,
the computed title start index is 6 (Python `find` answers -1, not 0), not 7
as the claim states. -/
theorem c5_counterexample :
    containsSub (lowerChars "abc".toList) ltOpen = false ∧
      strFind (lowerChars "abc".toList) ltOpen + 7 = 6 ∧
      strFind (lowerChars "abc".toList) ltOpen + 7 ≠ 7 := by
  refine ⟨by decide, by decide, by decide⟩

/-- C5 amended: if the lower-cased body does not contain `<title>`, the
computed title start index (find result plus 7) equals 6, which fails the
`> 7` guard, so the title check is skipped for every such response and the
classification reduces to the status gate plus the body-keyword branch. -/
theorem c5_no_title_skips_check (s : Nat) (t : List Char)
    (h : containsSub (lowerChars t) ltOpen = false) :
    strFind (lowerChars t) ltOpen + 7 = 6 ∧
      titleHit t = false ∧
      (analyzeResponse s t = true ↔
        ((s = 200 ∨ s = 401 ∨ s = 403) ∧ bodyHit t = true)) := by
  have hf : strFind (lowerChars t) ltOpen = -1 := strFind_eq_neg_one h
  have ht : titleHit t = false := by
    rw [Bool.eq_false_iff, Ne, titleHit_eq_true_iff]
    rintro ⟨h1, -, -⟩
    rw [hf] at h1
    norm_num at h1
  refine ⟨by rw [hf]; norm_num, ht, ?_⟩
  rw [analyzeResponse_iff, ht]
  simp

/-- Witness for C5 (amended) at status 200 and the body `abc`. -/
theorem c5_no_title_skips_check_witness :
    containsSub (lowerChars "abc".toList) ltOpen = false ∧
      strFind (lowerChars "abc".toList) ltOpen + 7 = 6 ∧
      titleHit "abc".toList = false :=
  ⟨by decide, (c5_no_title_skips_check 200 "abc".toList (by decide)).1,
    (c5_no_title_skips_check 200 "abc".toList (by decide)).2.1⟩

/-- C6: a response with status 200 and an empty body classifies negative — the
body-keyword loop finds no match, the title index arithmetic yields start
index 6 which fails the guard, and no branch classifies positive. -/
theorem c6_empty_body :
    analyzeResponse 200 ([] : List Char) = false ∧
      bodyHit ([] : List Char) = false ∧
      strFind (lowerChars ([] : List Char)) ltOpen + 7 = 6 ∧
      titleHit ([] : List Char) = false := by
  refine ⟨by decide, by decide, by decide, by decide⟩

/-- C7: on a per-probe transport failure the worker logs a warning, issues
exactly one GET for that path (no retry), appends no result for it, and the
rest of the scan proceeds unchanged — no transport error aborts the scan. -/
theorem c7_transport_failure (v : Bool) (net : List Char → Option HttpResponse)
    (j : List Char → List Char → List Char) (b path : List Char)
    (rest : List (List Char)) (h : net path = none) :
    (runWorker v net j b path).1 =
        ScanEvent.probe path ::
          ((if v then [ScanEvent.errLine path] else []) ++ [ScanEvent.warnLog path]) ∧
      ScanEvent.warnLog path ∈ (runWorker v net j b path).1 ∧
      countProbes (runWorker v net j b path).1 = 1 ∧
      (runWorker v net j b path).2 = none ∧
      runScan v net j b (path :: rest) =
        ((runWorker v net j b path).1 ++ (runScan v net j b rest).1,
          (runScan v net j b rest).2) := by
  refine ⟨by simp [runWorker, h], ?_, countProbes_runWorker v net j b path,
    by simp [runWorker, h], ?_⟩
  · cases v <;> simp [runWorker, h]
  · simp [runScan, runWorker, h]

/-- Witness for C7: a network oracle that always fails, on path `admin` with
one remaining path. -/
theorem c7_transport_failure_witness :
    (runWorker true (fun _ => none) (fun _ p => p) ([] : List Char)
        "admin".toList).2 = none ∧
      countProbes (runWorker true (fun _ => none) (fun _ p => p) ([] : List Char)
        "admin".toList).1 = 1 :=
  ⟨(c7_transport_failure true (fun _ => none) (fun _ p => p) [] "admin".toList
      ["login".toList] rfl).2.2.2.1,
    (c7_transport_failure true (fun _ => none) (fun _ p => p) [] "admin".toList
      ["login".toList] rfl).2.2.1⟩

/-- C9: the summary's path count reads `qsize()` after all queued paths and all
per-worker sentinels have been got back out of the queue, so it is 0 for every
run, whatever the number of paths actually probed. -/
theorem c9_summary_reports_zero (nPaths threads : Nat) :
    summaryPathCount nPaths threads = 0 := by
  unfold summaryPathCount queueOpsOfRun
  rw [List.foldl_append, List.foldl_append, List.foldl_append,
    foldl_stepQueue_put, foldl_stepQueue_get, foldl_stepQueue_put, foldl_stepQueue_get]
  simp [qsize]

/-- C10: the verbose flag influences neither classification nor the returned
results — two runs identical but for the flag return the same result list, and
the verbose trace minus its diagnostic-only lines is the silent trace. -/
theorem c10_verbose_noninterference (net : List Char → Option HttpResponse)
    (j : List Char → List Char → List Char) (b : List Char)
    (paths : List (List Char)) :
    (runScan true net j b paths).2 = (runScan false net j b paths).2 ∧
      (runScan true net j b paths).1.filter (fun e => !isVerboseOnly e) =
        (runScan false net j b paths).1 := by
  induction paths with
  | nil => exact ⟨rfl, rfl⟩
  | cons p ps ih =>
    constructor
    · simp only [runScan]
      rw [runWorker_result_verbose]
      cases h2 : (runWorker false net j b p).2 <;> simp [h2, ih.1]
    · simp only [runScan]
      rw [List.filter_append, runWorker_events_verbose, ih.2]

/-- C8: when the status is eligible, no body keyword occurs, and `<title>` is
found at index 0 of the lower-cased body, the title start index computes to
exactly 7, fails the `> 7` guard, and the response classifies negative — e.g.
status 200 with body exactly `<title>控制后台</title>`, whose title does
contain the keyword `后台`. -/
theorem c8_title_at_index_zero (s : Nat) (t : List Char)
    (_hs : s = 200 ∨ s = 401 ∨ s = 403)
    (hb : bodyHit t = false)
    (hf : strFind (lowerChars t) ltOpen = 0) :
    strFind (lowerChars t) ltOpen + 7 = 7 ∧ analyzeResponse s t = false := by
  have ht : titleHit t = false := by
    rw [Bool.eq_false_iff, Ne, titleHit_eq_true_iff]
    rintro ⟨h1, -, -⟩
    rw [hf] at h1
    norm_num at h1
  refine ⟨by rw [hf]; norm_num, ?_⟩
  rw [Bool.eq_false_iff, Ne, analyzeResponse_iff]
  rintro ⟨-, h | h⟩
  · rw [hb] at h
    cases h
  · rw [ht] at h
    cases h

/-- Witness for C8 at status 200 and body `<title>控制后台</title>`: the body
branch misses, the tag sits at index 0, the extracted title does contain
`后台`, yet the response classifies negative. -/
theorem c8_title_at_index_zero_witness :
    bodyHit "<title>控制后台</title>".toList = false ∧
      strFind (lowerChars "<title>控制后台</title>".toList) ltOpen = 0 ∧
      containsSub (titleText "<title>控制后台</title>".toList) "后台".toList = true ∧
      analyzeResponse 200 "<title>控制后台</title>".toList = false :=
  ⟨by decide, by decide, by decide,
    (c8_title_at_index_zero 200 "<title>控制后台</title>".toList (Or.inl rfl)
      (by decide) (by decide)).2⟩

end AdminFinder
